import Mathlib

/-!
Shallow embedding of the sfo-sql connection/transaction core and error
normalizer (src/src/db_helper.rs, src/src/sqlite.rs, src/src/mysql.rs,
src/src/errors.rs), together with theorems settling the specification
claims about it.

The backend driver is an external collaborator; it is modelled as an
explicit oracle passed to each operation: statement execution is a
function from the execution target (the open transaction or the raw
session) and the prepared statement to a driver outcome, and the
transaction primitives (begin / commit / rollback) are passed as their
outcomes.  Transaction-lifecycle operations additionally return the list
of driver actions they issued, so that properties such as "the open
transaction is rolled back, never committed" can be stated.
-/

namespace SfoSql

/-- Domain error codes, from `src/src/errors.rs` (`SqlErrorCode`). -/
inductive SqlErrorCode
  | Failed
  | NotFound
  | AlreadyExists
deriving DecidableEq, Repr

/-- Domain error: a code plus a diagnostic message
(`sfo_result::Error<SqlErrorCode>` from `src/src/errors.rs`). -/
structure SqlError where
  code : SqlErrorCode
  msg : String
deriving DecidableEq, Repr

/-- Native driver error (`sqlx::Error`), restricted to the structure the
repository inspects: the row-not-found variant, the database-reported
variant carrying an optional native error-code string, and everything
else. -/
inductive SqlxError
  | RowNotFound
  | Database (code : Option String) (info : String)
  | Other (info : String)
deriving DecidableEq, Repr

/-- Rendering of a native error used when the Rust code formats the error
with `{:?}` into a diagnostic message. -/
def sqlxErrorDebug : SqlxError → String
  | SqlxError.RowNotFound => "RowNotFound"
  | SqlxError.Database code info =>
    "Database(" ++ (match code with | some c => c | none => "none") ++ " " ++ info ++ ")"
  | SqlxError.Other info => "Other(" ++ info ++ ")"

/-- Prepared statement: SQL text plus positional bound parameters
(`SqlQuery` in `src/src/db_helper.rs`; the binding syntax itself is an
external collaborator, so parameters are kept as opaque strings). -/
structure SqlQuery where
  sql : String
  binds : List String
deriving DecidableEq, Repr

/-- `sql_query` from `src/src/db_helper.rs`: a statement with no bound
parameters yet. -/
def sql_query (sql : String) : SqlQuery :=
  { sql := sql, binds := [] }

/-- `Query::bind`: append one positional parameter. -/
def SqlQuery.bind (q : SqlQuery) (v : String) : SqlQuery :=
  { q with binds := q.binds ++ [v] }

/-- A driver-side transaction handle (`sqlx::Transaction`); identified by
an abstract id. -/
structure Transaction where
  transId : Nat
deriving DecidableEq, Repr

/-- `SqlConnectionType` from `src/src/db_helper.rs`: a session is either
leased from the pool or standalone; the underlying driver session is
abstracted as an id. -/
inductive SqlConnectionType
  | PoolConn (sessionId : Nat)
  | Conn (sessionId : Nat)
deriving DecidableEq, Repr

/-- `SqlConnection` from `src/src/db_helper.rs`: the session together with
at most one open transaction. -/
structure SqlConnection where
  conn : SqlConnectionType
  trans : Option Transaction
deriving DecidableEq, Repr

/-- Where a statement is executed: through an open transaction, or
directly on the underlying session. -/
inductive ExecTarget
  | transaction (t : Transaction)
  | session (c : SqlConnectionType)
deriving DecidableEq, Repr

/-- The target a connection currently routes statements to. -/
def SqlConnection.execTarget (self : SqlConnection) : ExecTarget :=
  match self.trans with
  | some t => ExecTarget.transaction t
  | none => ExecTarget.session self.conn

/-- Driver actions issued by the transaction-lifecycle operations. -/
inductive DriverAction
  | beginTx
  | commitTx (t : Transaction)
  | rollbackTx (t : Transaction)
deriving DecidableEq, Repr

/-- `SqlConnection::execute_sql` (src/src/db_helper.rs lines 201-215): if
no transaction is open, execute on the raw session (pool-leased or
standalone branch); otherwise execute through the open transaction.
Driver errors are mapped by the error-map strategy `EMmap` with the
call-site line number and the statement text as context. -/
def SqlConnection.execute_sql (EMmap : SqlxError → String → SqlError)
    (self : SqlConnection) (query : SqlQuery)
    (driver : ExecTarget → SqlQuery → Except SqlxError Nat) :
    Except SqlError Nat :=
  let sql := query.sql
  match self.trans with
  | none =>
    match self.conn with
    | SqlConnectionType.PoolConn _ =>
      (driver (ExecTarget.session self.conn) query).mapError
        (fun e => EMmap e ("[206 " ++ sql ++ "]"))
    | SqlConnectionType.Conn _ =>
      (driver (ExecTarget.session self.conn) query).mapError
        (fun e => EMmap e ("[209 " ++ sql ++ "]"))
  | some t =>
    (driver (ExecTarget.transaction t) query).mapError
      (fun e => EMmap e ("[213 " ++ sql ++ "]"))

/-- `SqlConnection::query_one` (src/src/db_helper.rs lines 217-231): same
routing as `execute_sql`, fetching one row. -/
def SqlConnection.query_one {Row : Type} (EMmap : SqlxError → String → SqlError)
    (self : SqlConnection) (query : SqlQuery)
    (driver : ExecTarget → SqlQuery → Except SqlxError Row) :
    Except SqlError Row :=
  let sql := query.sql
  match self.trans with
  | none =>
    match self.conn with
    | SqlConnectionType.PoolConn _ =>
      (driver (ExecTarget.session self.conn) query).mapError
        (fun e => EMmap e ("[222 " ++ sql ++ "]"))
    | SqlConnectionType.Conn _ =>
      (driver (ExecTarget.session self.conn) query).mapError
        (fun e => EMmap e ("[225 " ++ sql ++ "]"))
  | some t =>
    (driver (ExecTarget.transaction t) query).mapError
      (fun e => EMmap e ("[229 " ++ sql ++ "]"))

/-- `SqlConnection::query_all` (src/src/db_helper.rs lines 233-247): same
routing, fetching all rows. -/
def SqlConnection.query_all {Row : Type} (EMmap : SqlxError → String → SqlError)
    (self : SqlConnection) (query : SqlQuery)
    (driver : ExecTarget → SqlQuery → Except SqlxError (List Row)) :
    Except SqlError (List Row) :=
  let sql := query.sql
  match self.trans with
  | none =>
    match self.conn with
    | SqlConnectionType.PoolConn _ =>
      (driver (ExecTarget.session self.conn) query).mapError
        (fun e => EMmap e ("[238 " ++ sql ++ "]"))
    | SqlConnectionType.Conn _ =>
      (driver (ExecTarget.session self.conn) query).mapError
        (fun e => EMmap e ("[241 " ++ sql ++ "]"))
  | some t =>
    (driver (ExecTarget.transaction t) query).mapError
      (fun e => EMmap e ("[245 " ++ sql ++ "]"))

/-- `SqlConnection::begin_transaction` (src/src/db_helper.rs lines
249-261): unconditionally asks the driver to begin a transaction on the
session and, on success, stores the new handle into `self.trans` —
without checking whether a transaction is already open.  `driverBegin` is
the outcome of the driver-level begin. -/
def SqlConnection.begin_transaction (EMmap : SqlxError → String → SqlError)
    (self : SqlConnection) (driverBegin : Except SqlxError Transaction) :
    Except SqlError Unit × SqlConnection × List DriverAction :=
  let r :=
    match self.conn with
    | SqlConnectionType.PoolConn _ =>
      driverBegin.mapError (fun e => EMmap e ("[253 begin trans]"))
    | SqlConnectionType.Conn _ =>
      driverBegin.mapError (fun e => EMmap e ("[256 begin trans]"))
  match r with
  | Except.error err => (Except.error err, self, [DriverAction.beginTx])
  | Except.ok t =>
    (Except.ok (), { self with trans := some t }, [DriverAction.beginTx])

/-- `SqlConnection::rollback_transaction` (src/src/db_helper.rs lines
263-269): no-op success when no transaction is open; otherwise the handle
is taken out of `self.trans` (clearing it) and the driver rollback is
issued, its error mapped. -/
def SqlConnection.rollback_transaction (EMmap : SqlxError → String → SqlError)
    (self : SqlConnection)
    (driverRollback : Transaction → Except SqlxError Unit) :
    Except SqlError Unit × SqlConnection × List DriverAction :=
  match self.trans with
  | none => (Except.ok (), self, [])
  | some t =>
    let taken := { self with trans := none }
    match driverRollback t with
    | Except.ok _ => (Except.ok (), taken, [DriverAction.rollbackTx t])
    | Except.error e =>
      (Except.error (EMmap e ("[267 rollback trans]")), taken,
        [DriverAction.rollbackTx t])

/-- `SqlConnection::commit_transaction` (src/src/db_helper.rs lines
271-277): no-op success when no transaction is open; otherwise the handle
is taken out of `self.trans` (clearing it) and the driver commit is
issued, its error mapped. -/
def SqlConnection.commit_transaction (EMmap : SqlxError → String → SqlError)
    (self : SqlConnection)
    (driverCommit : Transaction → Except SqlxError Unit) :
    Except SqlError Unit × SqlConnection × List DriverAction :=
  match self.trans with
  | none => (Except.ok (), self, [])
  | some t =>
    let taken := { self with trans := none }
    match driverCommit t with
    | Except.ok _ => (Except.ok (), taken, [DriverAction.commitTx t])
    | Except.error e =>
      (Except.error (EMmap e ("[275 commit trans]")), taken,
        [DriverAction.commitTx t])

/-- `impl Drop for SqlConnection` (src/src/db_helper.rs lines 318-327):
on release, if a transaction is still open it is taken out and rolled
back; the rollback's result is discarded (`let _ = trans.rollback()`),
and nothing is propagated — the return carries no error channel. -/
def SqlConnection.drop (self : SqlConnection)
    (driverRollback : Transaction → Except SqlxError Unit) :
    SqlConnection × List DriverAction :=
  match self.trans with
  | some t =>
    let _discarded := driverRollback t
    ({ self with trans := none }, [DriverAction.rollbackTx t])
  | none => (self, [])

namespace sqlite

/-- SQLite native error code the normalizer treats as the uniqueness
violation (extended result code 1555, a primary-key uniqueness
violation). -/
def sqliteUniquenessViolationCode : String := "1555"

namespace RawErrorToSqlError

/-- `RawErrorToSqlError::map` for the SQLite backend (src/src/sqlite.rs
lines 24-55): row-not-found maps to `NotFound`; a database-reported error
whose native code is 1555 maps to `AlreadyExists`, any other
database-reported error to `Failed` carrying the formatted diagnostic;
every other native error maps to `Failed` with an empty message. -/
def map (e : SqlxError) (msg : String) : SqlError :=
  match e with
  | SqlxError.RowNotFound =>
    { code := SqlErrorCode.NotFound, msg := "not found" }
  | SqlxError.Database code _ =>
    let m := "sql error: " ++ sqlxErrorDebug e ++ " info:" ++ msg
    match code with
    | some c =>
      if c = sqliteUniquenessViolationCode then
        { code := SqlErrorCode.AlreadyExists, msg := "already exists" }
      else
        { code := SqlErrorCode.Failed, msg := m }
    | none => { code := SqlErrorCode.Failed, msg := m }
  | SqlxError.Other _ => { code := SqlErrorCode.Failed, msg := "" }

end RawErrorToSqlError

/-- `SqlConnection::is_column_exist` for the SQLite backend
(src/src/sqlite.rs lines 119-130): query `sqlite_master` for the table's
stored definition text with the column name pattern-matched inside it;
any error from the query yields `Ok(false)`, success yields `Ok(true)`. -/
def is_column_exist {Row : Type} (self : SqlConnection)
    (table_name column_name : String)
    (driver : ExecTarget → SqlQuery → Except SqlxError Row) :
    Except SqlError Bool :=
  let sql :=
    "select * from sqlite_master where type=\x27table\x27 and tbl_name=?1 and sql like ?2"
  let ret := SqlConnection.query_one RawErrorToSqlError.map self
    (((sql_query sql).bind table_name).bind ("%" ++ column_name ++ "%")) driver
  match ret with
  | Except.error _ => Except.ok false
  | Except.ok _ => Except.ok true

/-- `SqlConnection::is_index_exist` for the SQLite backend
(src/src/sqlite.rs lines 132-143): query `sqlite_master` for an index of
that name on the table; any error from the query yields `Ok(false)`,
success yields `Ok(true)`. -/
def is_index_exist {Row : Type} (self : SqlConnection)
    (table_name index_name : String)
    (driver : ExecTarget → SqlQuery → Except SqlxError Row) :
    Except SqlError Bool :=
  let sql :=
    "select * from sqlite_master where type=\x27index\x27 and tbl_name=?1 and name=?2"
  let ret := SqlConnection.query_one RawErrorToSqlError.map self
    (((sql_query sql).bind table_name).bind index_name) driver
  match ret with
  | Except.error _ => Except.ok false
  | Except.ok _ => Except.ok true

end sqlite

namespace mysql

/-- MySQL native error code for a duplicate-entry (uniqueness) violation. -/
def mysqlDuplicateEntryCode : String := "1062"

namespace RawErrorToSqlError

/-- Modelled from the spec: the MySQL backend's `RawErrorToSqlError`
implementation is not under `src/` (src/src/mysql.rs only references the
name in its type aliases).  Per the spec's error-normalizer dispatch:
row-not-found maps to `NotFound`; a database-reported error whose native
code is MySQL's duplicate-entry code maps to `AlreadyExists`, any other
database-reported code to `Failed` carrying the native error and context
message; all other native errors map to `Failed`. -/
def map (e : SqlxError) (msg : String) : SqlError :=
  match e with
  | SqlxError.RowNotFound =>
    { code := SqlErrorCode.NotFound, msg := "not found" }
  | SqlxError.Database code _ =>
    let m := "sql error: " ++ sqlxErrorDebug e ++ " info:" ++ msg
    match code with
    | some c =>
      if c = mysqlDuplicateEntryCode then
        { code := SqlErrorCode.AlreadyExists, msg := "already exists" }
      else
        { code := SqlErrorCode.Failed, msg := m }
    | none => { code := SqlErrorCode.Failed, msg := m }
  | SqlxError.Other _ => { code := SqlErrorCode.Failed, msg := "" }

end RawErrorToSqlError

end mysql

/-- Whether a native error is the SQLite backend's uniqueness violation:
a database-reported error carrying native code 1555. -/
def isUniquenessViolation : SqlxError → Bool
  | SqlxError.Database (some c) _ => c = sqlite.sqliteUniquenessViolationCode
  | _ => false

/-- Domain error code carried by a result, if it is an error. -/
def errCode {α : Type} : Except SqlError α → Option SqlErrorCode
  | Except.error er => some er.code
  | Except.ok _ => none

/-- Whether a driver outcome is a success. -/
def exceptIsOk {ε α : Type} : Except ε α → Bool
  | Except.ok _ => true
  | Except.error _ => false

/-- Context message attached by `execute_sql` to a driver error, per
routing branch. -/
def execMsg (self : SqlConnection) (sql : String) : String :=
  match self.trans with
  | none =>
    match self.conn with
    | SqlConnectionType.PoolConn _ => "[206 " ++ sql ++ "]"
    | SqlConnectionType.Conn _ => "[209 " ++ sql ++ "]"
  | some _ => "[213 " ++ sql ++ "]"

/-- Context message attached by `query_one` to a driver error, per
routing branch. -/
def queryOneMsg (self : SqlConnection) (sql : String) : String :=
  match self.trans with
  | none =>
    match self.conn with
    | SqlConnectionType.PoolConn _ => "[222 " ++ sql ++ "]"
    | SqlConnectionType.Conn _ => "[225 " ++ sql ++ "]"
  | some _ => "[229 " ++ sql ++ "]"

/-- Context message attached by `query_all` to a driver error, per
routing branch. -/
def queryAllMsg (self : SqlConnection) (sql : String) : String :=
  match self.trans with
  | none =>
    match self.conn with
    | SqlConnectionType.PoolConn _ => "[238 " ++ sql ++ "]"
    | SqlConnectionType.Conn _ => "[241 " ++ sql ++ "]"
  | some _ => "[245 " ++ sql ++ "]"

/-- Claim C1: releasing (dropping) a `SqlConnection` while a transaction
is still open issues exactly one driver rollback of that transaction —
never a commit — leaves the connection holding no transaction, and the
outcome of release is identical whatever the driver rollback returned
(rollback errors are swallowed, never propagated). -/
theorem release_rolls_back_open_transaction (self : SqlConnection)
    (t : Transaction) (h : self.trans = some t)
    (d d' : Transaction → Except SqlxError Unit) :
    (SqlConnection.drop self d).2 = [DriverAction.rollbackTx t] ∧
    (∀ t', DriverAction.commitTx t' ∉ (SqlConnection.drop self d).2) ∧
    (SqlConnection.drop self d).1.trans = none ∧
    SqlConnection.drop self d = SqlConnection.drop self d' := by
  simp [SqlConnection.drop, h]

/-- Claim C1 witness: a standalone connection with transaction 1 open,
released once with a succeeding and once with a failing driver rollback. -/
theorem release_rolls_back_open_transaction_witness :
    (SqlConnection.drop
        { conn := SqlConnectionType.Conn 0, trans := some { transId := 1 } }
        (fun _ => Except.ok ())).2 = [DriverAction.rollbackTx { transId := 1 }] ∧
    (∀ t', DriverAction.commitTx t' ∉
      (SqlConnection.drop
        { conn := SqlConnectionType.Conn 0, trans := some { transId := 1 } }
        (fun _ => Except.ok ())).2) ∧
    (SqlConnection.drop
        { conn := SqlConnectionType.Conn 0, trans := some { transId := 1 } }
        (fun _ => Except.ok ())).1.trans = none ∧
    SqlConnection.drop
        { conn := SqlConnectionType.Conn 0, trans := some { transId := 1 } }
        (fun _ => Except.ok ())
      = SqlConnection.drop
        { conn := SqlConnectionType.Conn 0, trans := some { transId := 1 } }
        (fun _ => Except.error SqlxError.RowNotFound) :=
  release_rolls_back_open_transaction
    { conn := SqlConnectionType.Conn 0, trans := some { transId := 1 } }
    { transId := 1 } rfl (fun _ => Except.ok ())
    (fun _ => Except.error SqlxError.RowNotFound)

/-- Claim C2 (code bug, evaluated at the failing input): calling
`begin_transaction` on a connection whose transaction 7 is still open,
with the driver-level begin succeeding with a new transaction 8, returns
success, installs the new handle, and issues only the begin action: the
open transaction 7 is silently discarded — the call is not rejected and
no rollback of transaction 7 is issued, contradicting the claim. -/
theorem begin_transaction_silently_discards_open_transaction :
    SqlConnection.begin_transaction sqlite.RawErrorToSqlError.map
        { conn := SqlConnectionType.Conn 0, trans := some { transId := 7 } }
        (Except.ok { transId := 8 })
      = (Except.ok (),
         { conn := SqlConnectionType.Conn 0, trans := some { transId := 8 } },
         [DriverAction.beginTx]) := rfl

/-- Claim C3: each of `execute_sql`, `query_one` and `query_all` is
exactly the driver applied to the connection's current execution target
with errors normalized — and that target is the open transaction whenever
one is open, and the underlying session (pool-leased or standalone) only
when none is open. -/
theorem statements_route_through_open_transaction {Row : Type}
    (EMmap : SqlxError → String → SqlError) (self : SqlConnection)
    (q : SqlQuery)
    (de : ExecTarget → SqlQuery → Except SqlxError Nat)
    (d1 : ExecTarget → SqlQuery → Except SqlxError Row)
    (da : ExecTarget → SqlQuery → Except SqlxError (List Row)) :
    (∀ t, self.trans = some t → self.execTarget = ExecTarget.transaction t) ∧
    (self.trans = none → self.execTarget = ExecTarget.session self.conn) ∧
    SqlConnection.execute_sql EMmap self q de
      = (de self.execTarget q).mapError (fun e => EMmap e (execMsg self q.sql)) ∧
    SqlConnection.query_one EMmap self q d1
      = (d1 self.execTarget q).mapError (fun e => EMmap e (queryOneMsg self q.sql)) ∧
    SqlConnection.query_all EMmap self q da
      = (da self.execTarget q).mapError (fun e => EMmap e (queryAllMsg self q.sql)) := by
  rcases self with ⟨conn, trans⟩
  cases trans with
  | none =>
    cases conn <;>
      simp [SqlConnection.execTarget, SqlConnection.execute_sql,
        SqlConnection.query_one, SqlConnection.query_all, execMsg,
        queryOneMsg, queryAllMsg]
  | some t =>
    cases conn <;>
      simp [SqlConnection.execTarget, SqlConnection.execute_sql,
        SqlConnection.query_one, SqlConnection.query_all, execMsg,
        queryOneMsg, queryAllMsg]

/-- Claim C3 witness: routing at a pool-leased connection with
transaction 5 open, with `Nat` rows and concrete drivers. -/
theorem statements_route_through_open_transaction_witness :
    (∀ t, (SqlConnection.mk (SqlConnectionType.PoolConn 3)
        (some { transId := 5 })).trans = some t →
      (SqlConnection.mk (SqlConnectionType.PoolConn 3)
        (some { transId := 5 })).execTarget = ExecTarget.transaction t) ∧
    ((SqlConnection.mk (SqlConnectionType.PoolConn 3)
        (some { transId := 5 })).trans = none →
      (SqlConnection.mk (SqlConnectionType.PoolConn 3)
        (some { transId := 5 })).execTarget
        = ExecTarget.session (SqlConnectionType.PoolConn 3)) ∧
    SqlConnection.execute_sql sqlite.RawErrorToSqlError.map
        (SqlConnection.mk (SqlConnectionType.PoolConn 3) (some { transId := 5 }))
        (sql_query ("select 1")) (fun _ _ => Except.ok 1)
      = ((fun (_ : ExecTarget) (_ : SqlQuery) => Except.ok 1)
          (SqlConnection.mk (SqlConnectionType.PoolConn 3)
            (some { transId := 5 })).execTarget (sql_query ("select 1"))).mapError
          (fun e => sqlite.RawErrorToSqlError.map e
            (execMsg (SqlConnection.mk (SqlConnectionType.PoolConn 3)
              (some { transId := 5 })) (sql_query ("select 1")).sql)) ∧
    SqlConnection.query_one sqlite.RawErrorToSqlError.map
        (SqlConnection.mk (SqlConnectionType.PoolConn 3) (some { transId := 5 }))
        (sql_query ("select 1")) (fun _ _ => Except.ok (2 : Nat))
      = ((fun (_ : ExecTarget) (_ : SqlQuery) => Except.ok (2 : Nat))
          (SqlConnection.mk (SqlConnectionType.PoolConn 3)
            (some { transId := 5 })).execTarget (sql_query ("select 1"))).mapError
          (fun e => sqlite.RawErrorToSqlError.map e
            (queryOneMsg (SqlConnection.mk (SqlConnectionType.PoolConn 3)
              (some { transId := 5 })) (sql_query ("select 1")).sql)) ∧
    SqlConnection.query_all sqlite.RawErrorToSqlError.map
        (SqlConnection.mk (SqlConnectionType.PoolConn 3) (some { transId := 5 }))
        (sql_query ("select 1")) (fun _ _ => Except.ok ([] : List Nat))
      = ((fun (_ : ExecTarget) (_ : SqlQuery) => Except.ok ([] : List Nat))
          (SqlConnection.mk (SqlConnectionType.PoolConn 3)
            (some { transId := 5 })).execTarget (sql_query ("select 1"))).mapError
          (fun e => sqlite.RawErrorToSqlError.map e
            (queryAllMsg (SqlConnection.mk (SqlConnectionType.PoolConn 3)
              (some { transId := 5 })) (sql_query ("select 1")).sql)) :=
  statements_route_through_open_transaction sqlite.RawErrorToSqlError.map
    (SqlConnection.mk (SqlConnectionType.PoolConn 3) (some { transId := 5 }))
    (sql_query ("select 1")) (fun _ _ => Except.ok 1)
    (fun _ _ => Except.ok (2 : Nat)) (fun _ _ => Except.ok ([] : List Nat))

/-- Claim C4: with the SQLite normalizer, whenever the driver fetch
behind `query_one` fails, the resulting domain error code is `NotFound`
exactly on the driver's zero-rows error (`RowNotFound`), `AlreadyExists`
exactly where the uniqueness-violation mapping applies, and `Failed` on
every other driver error. -/
theorem query_one_error_classification {Row : Type} (self : SqlConnection)
    (q : SqlQuery) (driver : ExecTarget → SqlQuery → Except SqlxError Row)
    (e : SqlxError) (h : driver self.execTarget q = Except.error e) :
    errCode (SqlConnection.query_one sqlite.RawErrorToSqlError.map self q driver)
      = some (if e = SqlxError.RowNotFound then SqlErrorCode.NotFound
          else if isUniquenessViolation e then SqlErrorCode.AlreadyExists
          else SqlErrorCode.Failed) := by
  rcases self with ⟨conn, trans⟩
  have hmap : ∀ m : String, (sqlite.RawErrorToSqlError.map e m).code
      = (if e = SqlxError.RowNotFound then SqlErrorCode.NotFound
          else if isUniquenessViolation e then SqlErrorCode.AlreadyExists
          else SqlErrorCode.Failed) := by
    intro m
    rcases e with _ | ⟨code, info⟩ | info
    · simp [sqlite.RawErrorToSqlError.map]
    · rcases code with _ | c
      · simp [sqlite.RawErrorToSqlError.map, isUniquenessViolation]
      · by_cases hc : c = sqlite.sqliteUniquenessViolationCode <;>
          simp [sqlite.RawErrorToSqlError.map, isUniquenessViolation, hc]
    · simp [sqlite.RawErrorToSqlError.map, isUniquenessViolation]
  cases trans with
  | none =>
    cases conn <;>
      simp_all [SqlConnection.query_one, SqlConnection.execTarget, errCode,
        Except.mapError]
  | some t =>
    simp_all [SqlConnection.query_one, SqlConnection.execTarget, errCode,
      Except.mapError]

/-- Claim C4 witness: a standalone connection with no transaction, whose
driver fetch reports zero rows; `query_one` fails with `NotFound`. -/
theorem query_one_error_classification_witness :
    errCode (SqlConnection.query_one sqlite.RawErrorToSqlError.map
        (SqlConnection.mk (SqlConnectionType.Conn 0) none)
        (sql_query ("select 1"))
        (fun _ _ => (Except.error SqlxError.RowNotFound : Except SqlxError Nat)))
      = some (if SqlxError.RowNotFound = SqlxError.RowNotFound then
            SqlErrorCode.NotFound
          else if isUniquenessViolation SqlxError.RowNotFound then
            SqlErrorCode.AlreadyExists
          else SqlErrorCode.Failed) :=
  query_one_error_classification
    (SqlConnection.mk (SqlConnectionType.Conn 0) none)
    (sql_query ("select 1"))
    (fun _ _ => (Except.error SqlxError.RowNotFound : Except SqlxError Nat))
    SqlxError.RowNotFound rfl

/-- Claim C5: each backend's normalizer classifies a database-reported
native error as `AlreadyExists` exactly when its native code equals that
backend's uniqueness-violation code — 1555 for SQLite, 1062
(duplicate-entry) for MySQL — and as `Failed` for every other
database-reported code.  The MySQL half is settled against the
spec-modelled normalizer. -/
theorem normalizer_already_exists_iff_uniqueness_code (code : Option String)
    (info msg : String) :
    ((sqlite.RawErrorToSqlError.map (SqlxError.Database code info) msg).code
      = if code = some sqlite.sqliteUniquenessViolationCode then
          SqlErrorCode.AlreadyExists
        else SqlErrorCode.Failed) ∧
    ((mysql.RawErrorToSqlError.map (SqlxError.Database code info) msg).code
      = if code = some mysql.mysqlDuplicateEntryCode then
          SqlErrorCode.AlreadyExists
        else SqlErrorCode.Failed) := by
  constructor
  · rcases code with _ | c
    · simp [sqlite.RawErrorToSqlError.map]
    · by_cases hc : c = sqlite.sqliteUniquenessViolationCode <;>
        simp [sqlite.RawErrorToSqlError.map, hc]
  · rcases code with _ | c
    · simp [mysql.RawErrorToSqlError.map]
    · by_cases hc : c = mysql.mysqlDuplicateEntryCode <;>
        simp [mysql.RawErrorToSqlError.map, hc]

/-- Claim C6: with no transaction open, `commit_transaction` and
`rollback_transaction` both succeed, leave the connection unchanged and
issue no driver action; running either a second time on the resulting
state gives exactly the same outcome as the first run. -/
theorem finalize_noop_without_open_transaction
    (EMmap : SqlxError → String → SqlError) (self : SqlConnection)
    (h : self.trans = none)
    (dc dr : Transaction → Except SqlxError Unit) :
    SqlConnection.commit_transaction EMmap self dc = (Except.ok (), self, []) ∧
    SqlConnection.rollback_transaction EMmap self dr = (Except.ok (), self, []) ∧
    SqlConnection.commit_transaction EMmap
        (SqlConnection.commit_transaction EMmap self dc).2.1 dc
      = SqlConnection.commit_transaction EMmap self dc ∧
    SqlConnection.rollback_transaction EMmap
        (SqlConnection.rollback_transaction EMmap self dr).2.1 dr
      = SqlConnection.rollback_transaction EMmap self dr := by
  simp [SqlConnection.commit_transaction, SqlConnection.rollback_transaction, h]

/-- Claim C6 witness: a pool-leased connection with no transaction open;
commit and rollback are no-ops and idempotent. -/
theorem finalize_noop_without_open_transaction_witness :
    SqlConnection.commit_transaction sqlite.RawErrorToSqlError.map
        (SqlConnection.mk (SqlConnectionType.PoolConn 2) none)
        (fun _ => Except.ok ())
      = (Except.ok (), SqlConnection.mk (SqlConnectionType.PoolConn 2) none, []) ∧
    SqlConnection.rollback_transaction sqlite.RawErrorToSqlError.map
        (SqlConnection.mk (SqlConnectionType.PoolConn 2) none)
        (fun _ => Except.ok ())
      = (Except.ok (), SqlConnection.mk (SqlConnectionType.PoolConn 2) none, []) ∧
    SqlConnection.commit_transaction sqlite.RawErrorToSqlError.map
        (SqlConnection.commit_transaction sqlite.RawErrorToSqlError.map
          (SqlConnection.mk (SqlConnectionType.PoolConn 2) none)
          (fun _ => Except.ok ())).2.1 (fun _ => Except.ok ())
      = SqlConnection.commit_transaction sqlite.RawErrorToSqlError.map
          (SqlConnection.mk (SqlConnectionType.PoolConn 2) none)
          (fun _ => Except.ok ()) ∧
    SqlConnection.rollback_transaction sqlite.RawErrorToSqlError.map
        (SqlConnection.rollback_transaction sqlite.RawErrorToSqlError.map
          (SqlConnection.mk (SqlConnectionType.PoolConn 2) none)
          (fun _ => Except.ok ())).2.1 (fun _ => Except.ok ())
      = SqlConnection.rollback_transaction sqlite.RawErrorToSqlError.map
          (SqlConnection.mk (SqlConnectionType.PoolConn 2) none)
          (fun _ => Except.ok ()) :=
  finalize_noop_without_open_transaction sqlite.RawErrorToSqlError.map
    (SqlConnection.mk (SqlConnectionType.PoolConn 2) none) rfl
    (fun _ => Except.ok ()) (fun _ => Except.ok ())

/-- Claim C7: when the driver fetch behind `query_all` reports zero
matching rows (an empty row list, not an error), `query_all` returns the
empty sequence with success, never an error. -/
theorem query_all_zero_rows_ok {Row : Type}
    (EMmap : SqlxError → String → SqlError) (self : SqlConnection)
    (q : SqlQuery)
    (da : ExecTarget → SqlQuery → Except SqlxError (List Row))
    (h : da self.execTarget q = Except.ok []) :
    SqlConnection.query_all EMmap self q da = Except.ok [] := by
  rcases self with ⟨conn, trans⟩
  cases trans with
  | none =>
    cases conn <;>
      simp_all [SqlConnection.query_all, SqlConnection.execTarget,
        Except.mapError]
  | some t =>
    simp_all [SqlConnection.query_all, SqlConnection.execTarget,
      Except.mapError]

/-- Claim C7 witness: a standalone connection with no transaction and a
driver matching zero rows; `query_all` yields the empty list. -/
theorem query_all_zero_rows_ok_witness :
    SqlConnection.query_all sqlite.RawErrorToSqlError.map
        (SqlConnection.mk (SqlConnectionType.Conn 1) none)
        (sql_query ("select 1"))
        (fun _ _ => Except.ok ([] : List Nat))
      = Except.ok [] :=
  query_all_zero_rows_ok sqlite.RawErrorToSqlError.map
    (SqlConnection.mk (SqlConnectionType.Conn 1) none)
    (sql_query ("select 1"))
    (fun _ _ => Except.ok ([] : List Nat)) rfl

/-- Claim C8: for every native error and every pair of context messages,
both backends' normalizers produce the same domain error code under
either message — the context message is diagnostics-only and never
affects classification into Failed / NotFound / AlreadyExists. -/
theorem context_message_never_affects_classification (e : SqlxError)
    (m1 m2 : String) :
    (sqlite.RawErrorToSqlError.map e m1).code
      = (sqlite.RawErrorToSqlError.map e m2).code ∧
    (mysql.RawErrorToSqlError.map e m1).code
      = (mysql.RawErrorToSqlError.map e m2).code := by
  rcases e with _ | ⟨code, info⟩ | info
  · simp [sqlite.RawErrorToSqlError.map, mysql.RawErrorToSqlError.map]
  · rcases code with _ | c
    · simp [sqlite.RawErrorToSqlError.map, mysql.RawErrorToSqlError.map]
    · constructor
      · by_cases hc : c = sqlite.sqliteUniquenessViolationCode <;>
          simp [sqlite.RawErrorToSqlError.map, hc]
      · by_cases hc : c = mysql.mysqlDuplicateEntryCode <;>
          simp [mysql.RawErrorToSqlError.map, hc]
  · simp [sqlite.RawErrorToSqlError.map, mysql.RawErrorToSqlError.map]

/-- Claim C9: the SQLite backend's `is_column_exist` and `is_index_exist`
return `Ok true` exactly when the catalog query they issue against
`sqlite_master` succeeds, and `Ok false` whenever it fails for any
reason — the result is always `Ok`, never a propagated error. -/
theorem sqlite_introspection_swallows_errors {Row : Type}
    (self : SqlConnection) (tn cn ixn : String)
    (d1 d2 : ExecTarget → SqlQuery → Except SqlxError Row) :
    (∃ q1, sqlite.is_column_exist self tn cn d1
      = Except.ok (exceptIsOk (d1 self.execTarget q1))) ∧
    (∃ q2, sqlite.is_index_exist self tn ixn d2
      = Except.ok (exceptIsOk (d2 self.execTarget q2))) := by
  rcases self with ⟨conn, trans⟩
  constructor
  · refine ⟨((sql_query
      ("select * from sqlite_master where type=\x27table\x27 and tbl_name=?1 and sql like ?2")).bind
        tn).bind ("%" ++ cn ++ "%"), ?_⟩
    cases trans with
    | none =>
      cases conn <;>
        · simp only [sqlite.is_column_exist, SqlConnection.query_one,
            SqlConnection.execTarget]
          cases d1 (ExecTarget.session _) _ <;> simp [exceptIsOk, Except.mapError]
    | some t =>
      simp only [sqlite.is_column_exist, SqlConnection.query_one,
        SqlConnection.execTarget]
      cases d1 (ExecTarget.transaction t) _ <;> simp [exceptIsOk, Except.mapError]
  · refine ⟨((sql_query
      ("select * from sqlite_master where type=\x27index\x27 and tbl_name=?1 and name=?2")).bind
        tn).bind ixn, ?_⟩
    cases trans with
    | none =>
      cases conn <;>
        · simp only [sqlite.is_index_exist, SqlConnection.query_one,
            SqlConnection.execTarget]
          cases d2 (ExecTarget.session _) _ <;> simp [exceptIsOk, Except.mapError]
    | some t =>
      simp only [sqlite.is_index_exist, SqlConnection.query_one,
        SqlConnection.execTarget]
      cases d2 (ExecTarget.transaction t) _ <;> simp [exceptIsOk, Except.mapError]

/-- Claim C10: after `commit_transaction` or `rollback_transaction`
returns — whether it succeeds or the driver commit / rollback fails — the
connection holds no transaction: the resulting state is exactly the input
connection with the handle cleared, so subsequent statements route
directly to the unchanged underlying session. -/
theorem finalize_always_clears_transaction
    (EMmap : SqlxError → String → SqlError) (self : SqlConnection)
    (dc dr : Transaction → Except SqlxError Unit) :
    (SqlConnection.commit_transaction EMmap self dc).2.1
      = { self with trans := none } ∧
    (SqlConnection.rollback_transaction EMmap self dr).2.1
      = { self with trans := none } ∧
    ((SqlConnection.commit_transaction EMmap self dc).2.1).execTarget
      = ExecTarget.session self.conn ∧
    ((SqlConnection.rollback_transaction EMmap self dr).2.1).execTarget
      = ExecTarget.session self.conn := by
  rcases self with ⟨conn, trans⟩
  cases trans with
  | none =>
    simp [SqlConnection.commit_transaction, SqlConnection.rollback_transaction,
      SqlConnection.execTarget]
  | some t =>
    cases hdc : dc t <;> cases hdr : dr t <;>
      simp [SqlConnection.commit_transaction,
        SqlConnection.rollback_transaction, SqlConnection.execTarget,
        hdc, hdr]

end SfoSql
